import Mathlib

/-!
# Multi-context WebSocket TTS client: sessions, multiplexer, frame routing

A shallow embedding of the Go package `tts` (`context.go`, `client.go`).

Conventions of the embedding.

* A byte is a `Nat`; `[]byte` is `List Nat`; `[][]byte` is `List (List Nat)`.
* A callback field (`OnAudio`, `OnError`, ...) is a `Bool`: `true` when the
  field holds a function, `false` when it is `nil`.  Calling a callback is
  recorded as an `Event`; the events a call produces are returned in order.
* `*websocket.Conn` is `Option Nat`: `none` is the nil pointer, `some k` a
  handle to transport number `k`.
* `map[string]*TTSContext` is an association list with map operations
  (`mapLookup`, `mapStore`, `mapDelete`); `len` is its length.
* Library calls whose code is outside the package are arguments: the base64
  decoder (`base64.StdEncoding.DecodeString`), the result of
  `json.Unmarshal`, of `url.Parse`, of `Dial` and of `ws.Close`.
-/

namespace TTS

/-! ## Library interfaces -/

/-- The signature of `base64.StdEncoding.DecodeString`: bytes, or an error text. -/
abbrev Decoder := String → Except String (List Nat)

deriving instance DecidableEq for Except

/-- A loosely typed JSON value, as `json.Unmarshal` stores it in an `interface{}`. -/
inductive JValue where
  | null
  | bool (b : Bool)
  | number (literal : String)
  | string (s : String)
  | array (items : List JValue)
  | object (fields : List (String × JValue))

/-- A decoded frame: `map[string]interface{}`, looked up by first match. -/
abbrev Frame := List (String × JValue)

/-- Indexing `data[key]`: the stored value, or `none` for a missing key. -/
def Frame.index (data : Frame) (key : String) : Option JValue :=
  match data with
  | [] => none
  | (k, v) :: rest => if k = key then some v else Frame.index rest key

/-- The type assertion `data[key].(string)`. -/
def Frame.asString (data : Frame) (key : String) : Option String :=
  match data.index key with
  | some (JValue.string s) => some s
  | _ => none

/-- The type assertion `data[key].(bool)`. -/
def Frame.asBool (data : Frame) (key : String) : Option Bool :=
  match data.index key with
  | some (JValue.bool b) => some b
  | _ => none

/-! ## Observable events -/

/-- One callback invocation or transport action, in the order it happens. -/
inductive Event where
  | onAudio (contextID : String) (audioData : List Nat) (isFinal : Bool)
  | onError (contextID : String) (errorCode : String) (errorMessage : String)
  | onComplete (contextID : String)
  | onConnected
  | onDisconnected
  | onGlobalError (err : String)
  | wsClose (conn : Nat)
  deriving DecidableEq, Repr

/-! ## Session (`context.go`) -/

/-- The struct `TTSContext`. -/
structure TTSContext where
  ContextID : String
  ws : Option Nat
  audioBuffer : List (List Nat)
  OnAudio : Bool
  OnError : Bool
  OnComplete : Bool
  deriving DecidableEq, Repr

/-- The method `handleError`: call `OnError` when it is set. -/
def TTSContext.handleError (ctx : TTSContext) (errorCode errorMessage : String) :
    List Event :=
  if ctx.OnError then [Event.onError ctx.ContextID errorCode errorMessage] else []

/-- The method `handleAudio`: decode, buffer, then `OnAudio`, then `OnComplete`. -/
def TTSContext.handleAudio (decode : Decoder) (ctx : TTSContext)
    (audioBase64 : String) (isFinal : Bool) : TTSContext × List Event :=
  match decode audioBase64 with
  | Except.error err =>
    (ctx,
      if ctx.OnError then
        [Event.onError ctx.ContextID "DECODE_ERROR" ("Failed to decode audio: " ++ err)]
      else [])
  | Except.ok audioData =>
    ({ ctx with audioBuffer := ctx.audioBuffer ++ [audioData] },
      (if ctx.OnAudio then [Event.onAudio ctx.ContextID audioData isFinal] else []) ++
      (if isFinal && ctx.OnComplete then [Event.onComplete ctx.ContextID] else []))

/-- The method `GetAllAudio`: append every buffered chunk to an empty result. -/
def TTSContext.GetAllAudio (ctx : TTSContext) : List Nat :=
  ctx.audioBuffer.foldl (fun result chunk => result ++ chunk) []

/-- The method `ClearAudioBuffer`: the buffer becomes `nil`. -/
def TTSContext.ClearAudioBuffer (ctx : TTSContext) : TTSContext :=
  { ctx with audioBuffer := [] }

/-! ### Sequences of session operations -/

/-- One step of a session history: an audio delivery or a buffer clear. -/
inductive AudioOp where
  | deliver (audioBase64 : String) (isFinal : Bool)
  | clear
  deriving DecidableEq, Repr

/-- Tells whether a step is a `ClearAudioBuffer` call. -/
def AudioOp.isClear : AudioOp → Bool
  | AudioOp.clear => true
  | AudioOp.deliver _ _ => false

/-- Apply one step to a session. -/
def TTSContext.applyOp (decode : Decoder) (ctx : TTSContext) : AudioOp → TTSContext
  | AudioOp.deliver audioBase64 isFinal => (ctx.handleAudio decode audioBase64 isFinal).1
  | AudioOp.clear => ctx.ClearAudioBuffer

/-- Apply a history of steps, oldest first. -/
def TTSContext.applyOps (decode : Decoder) (ctx : TTSContext) (ops : List AudioOp) :
    TTSContext :=
  ops.foldl (TTSContext.applyOp decode) ctx

/-- The steps that follow the most recent clear (all of them when there is none). -/
def sinceLastClear (ops : List AudioOp) : List AudioOp :=
  (ops.reverse.takeWhile (fun op => !op.isClear)).reverse

/-- The decoded bytes of the deliveries of a history, concatenated in order; a
payload the decoder rejects has no decoded bytes. -/
def decodedBytes (decode : Decoder) : List AudioOp → List Nat
  | [] => []
  | AudioOp.deliver audioBase64 _ :: rest =>
    (match decode audioBase64 with
      | Except.ok audioData => audioData
      | Except.error _ => []) ++ decodedBytes decode rest
  | AudioOp.clear :: rest => decodedBytes decode rest

/-! ## A concrete decoder for evaluation -/

/-- The six-bit value of a character of the standard base64 alphabet. -/
def sampleValue (ch : Char) : Option Nat :=
  if 'A' ≤ ch ∧ ch ≤ 'Z' then some (ch.toNat - 65)
  else if 'a' ≤ ch ∧ ch ≤ 'z' then some (ch.toNat - 97 + 26)
  else if '0' ≤ ch ∧ ch ≤ '9' then some (ch.toNat - 48 + 52)
  else if ch = '+' then some 62
  else if ch = '/' then some 63
  else none

/-- Decode a run of four-character groups; the last group may end in `=` or `==`. -/
def sampleQuanta : List Char → Except String (List Nat)
  | [] => Except.ok []
  | a :: b :: c :: d :: rest =>
    match sampleValue a, sampleValue b with
    | some va, some vb =>
      if rest = [] ∧ c = '=' ∧ d = '=' then
        Except.ok [(va * 4 + vb / 16) % 256]
      else
        match sampleValue c with
        | some vc =>
          if rest = [] ∧ d = '=' then
            Except.ok [(va * 4 + vb / 16) % 256, (vb * 16 + vc / 4) % 256]
          else
            match sampleValue d, sampleQuanta rest with
            | some vd, Except.ok tail =>
              Except.ok ((va * 4 + vb / 16) % 256 :: (vb * 16 + vc / 4) % 256 ::
                (vc * 64 + vd) % 256 :: tail)
            | _, _ => Except.error "illegal base64 data"
        | none => Except.error "illegal base64 data"
    | _, _ => Except.error "illegal base64 data"
  | _ => Except.error "illegal base64 data"

/-- A decoder for padded standard base64 (line breaks skipped), one instance of
`Decoder`, used to evaluate the definitions on concrete payloads.  The results
below hold for every decoder. -/
def sampleDecoder : Decoder := fun s =>
  sampleQuanta (s.toList.filter (fun ch => ch ≠ '\r' ∧ ch ≠ '\n'))

/-! ## Connection multiplexer (`client.go`) -/

/-- The type `map[string]*TTSContext`. -/
abbrev ContextMap := List (String × TTSContext)

/-- Indexing `m[key]`: the session stored under `key`, `none` for the nil result. -/
def mapLookup (m : ContextMap) (key : String) : Option TTSContext :=
  match m with
  | [] => none
  | (k, v) :: rest => if k = key then some v else mapLookup rest key

/-- The assignment `m[key] = ctx`: replace the entry of `key`, or add one. -/
def mapStore (m : ContextMap) (key : String) (ctx : TTSContext) : ContextMap :=
  match m with
  | [] => [(key, ctx)]
  | (k, v) :: rest =>
    if k = key then (k, ctx) :: rest else (k, v) :: mapStore rest key ctx

/-- The call `delete(m, key)`. -/
def mapDelete (m : ContextMap) (key : String) : ContextMap :=
  m.filter (fun entry => entry.1 ≠ key)

/-- The struct `TTSClient`.  `done` is `true` once the channel has been closed;
`reader` tells whether the `receiveMessages` goroutine is running. -/
structure TTSClient where
  baseURL : String
  apiKey : String
  voiceID : String
  ws : Option Nat
  contexts : ContextMap
  done : Bool
  OnConnected : Bool
  OnDisconnected : Bool
  OnGlobalError : Bool
  reader : Bool
  deriving DecidableEq, Repr

/-- The constructor `NewTTSClient`. -/
def NewTTSClient (baseURL apiKey voiceID : String) : TTSClient :=
  { baseURL := baseURL, apiKey := apiKey, voiceID := voiceID, ws := none,
    contexts := [], done := false, OnConnected := false, OnDisconnected := false,
    OnGlobalError := false, reader := false }

/-- The method `Connect`.  `urlErr` is the error of `url.Parse` (if any) and
`dial` the result of `Dial`: a transport handle, or an error with a nil handle. -/
def TTSClient.Connect (c : TTSClient) (urlErr : Option String)
    (dial : Except String Nat) : TTSClient × Option String × List Event :=
  match urlErr with
  | some err => (c, some ("invalid URL: " ++ err), [])
  | none =>
    match dial with
    | Except.error err => ({ c with ws := none }, some ("failed to connect: " ++ err), [])
    | Except.ok conn =>
      ({ c with ws := some conn, reader := true }, none,
        if c.OnConnected then [Event.onConnected] else [])

/-- The method `CreateContext`: the capacity check, the connection check, the
duplicate check, then registration of a fresh session. -/
def TTSClient.CreateContext (c : TTSClient) (contextID : String) :
    TTSClient × Except String TTSContext :=
  if c.contexts.length ≥ 5 then
    (c, Except.error "maximum 5 contexts allowed per connection")
  else if c.ws = none then
    (c, Except.error "websocket is not connected")
  else if (mapLookup c.contexts contextID).isSome then
    (c, Except.error ("context " ++ contextID ++ " already exists"))
  else
    let context : TTSContext :=
      { ContextID := contextID, ws := c.ws, audioBuffer := [],
        OnAudio := false, OnError := false, OnComplete := false }
    ({ c with contexts := mapStore c.contexts contextID context }, Except.ok context)

/-- The method `GetContext`. -/
def TTSClient.GetContext (c : TTSClient) (contextID : String) : Option TTSContext :=
  mapLookup c.contexts contextID

/-- The method `RemoveContext`. -/
def TTSClient.RemoveContext (c : TTSClient) (contextID : String) : TTSClient :=
  { c with contexts := mapDelete c.contexts contextID }

/-- The method `GetActiveContextCount`. -/
def TTSClient.GetActiveContextCount (c : TTSClient) : Nat :=
  c.contexts.length

/-- The method `IsConnected`. -/
def TTSClient.IsConnected (c : TTSClient) : Bool :=
  c.ws.isSome

/-- The context id of a frame: `context_id` when it is a string, else
`contextId` when it is a string, else the empty string. -/
def resolveContextID (data : Frame) : String :=
  match data.asString "context_id" with
  | some id => id
  | none =>
    match data.asString "contextId" with
    | some id => id
    | none => ""

/-- The final flag of a frame: `is_final` when it is a boolean, else `isFinal`
when it is a boolean, else `false`. -/
def resolveIsFinal (data : Frame) : Bool :=
  match data.asBool "is_final" with
  | some final => final
  | none =>
    match data.asBool "isFinal" with
    | some final => final
    | none => false

/-- The method `handleMessage`, applied to the result of `json.Unmarshal`. -/
def TTSClient.handleMessage (decode : Decoder) (c : TTSClient)
    (parsed : Except String Frame) : TTSClient × List Event :=
  match parsed with
  | Except.error _ => (c, [])
  | Except.ok data =>
    match data.asString "error" with
    | some errorCode =>
      let errorMessage := (data.asString "message").getD ""
      let contextID := resolveContextID data
      match mapLookup c.contexts contextID with
      | some context => (c, context.handleError errorCode errorMessage)
      | none =>
        (c, if c.OnGlobalError then
              [Event.onGlobalError (errorCode ++ ": " ++ errorMessage)]
            else [])
    | none =>
      let contextID := resolveContextID data
      if contextID ≠ "" then
        match mapLookup c.contexts contextID with
        | some context =>
          match data.asString "audio" with
          | some audioData =>
            let r := context.handleAudio decode audioData (resolveIsFinal data)
            ({ c with contexts := mapStore c.contexts contextID r.1 }, r.2)
          | none => (c, [])
        | none => (c, [])
      else (c, [])

/-- How a call that may wait on a channel ends. -/
inductive Outcome (α : Type) where
  | returned (value : α)
  | blocked
  | panicked
  deriving DecidableEq, Repr

/-- The end of `receiveMessages` after a failed read: the global-error callback
when the error is an unexpected close (`unexpected = some err`), then the
deferred `close(c.done)` and `OnDisconnected`.  Closing a closed channel panics. -/
def TTSClient.receiveMessagesExit (c : TTSClient) (unexpected : Option String) :
    Outcome (TTSClient × List Event) :=
  let reported :=
    match unexpected with
    | some err => if c.OnGlobalError then [Event.onGlobalError err] else []
    | none => []
  if c.done then Outcome.panicked
  else
    Outcome.returned ({ c with done := true, reader := false },
      reported ++ (if c.OnDisconnected then [Event.onDisconnected] else []))

/-- The method `Disconnect`.  `closeErr` is what `c.ws.Close()` returns.  A
running reader fails its read on the closed transport (not a close error, so
not reported) and exits; the receive on `c.done` then proceeds once the channel
is closed, and blocks when no reader is left to close it. -/
def TTSClient.Disconnect (c : TTSClient) (closeErr : Option String) :
    Outcome (TTSClient × Option String × List Event) :=
  match c.ws with
  | none => Outcome.returned (c, none, [])
  | some conn =>
    let afterReader : Outcome (TTSClient × List Event) :=
      if c.reader then c.receiveMessagesExit none else Outcome.returned (c, [])
    match afterReader with
    | Outcome.returned (c1, events) =>
      if c1.done then
        Outcome.returned ({ c1 with contexts := [] }, closeErr, Event.wsClose conn :: events)
      else Outcome.blocked
    | Outcome.blocked => Outcome.blocked
    | Outcome.panicked => Outcome.panicked

/-! ### Histories of client calls -/

/-- The caller writes the callback fields of the session stored under an id. -/
def TTSClient.setSessionCallbacks (c : TTSClient) (contextID : String)
    (onAudio onError onComplete : Bool) : TTSClient :=
  match mapLookup c.contexts contextID with
  | some ctx =>
    let updated : TTSContext :=
      { ctx with OnAudio := onAudio, OnError := onError, OnComplete := onComplete }
    { c with contexts := mapStore c.contexts contextID updated }
  | none => c

/-- The caller clears the audio buffer of the session stored under an id. -/
def TTSClient.clearSession (c : TTSClient) (contextID : String) : TTSClient :=
  match mapLookup c.contexts contextID with
  | some ctx => { c with contexts := mapStore c.contexts contextID ctx.ClearAudioBuffer }
  | none => c

/-- One call on a client, by its owner or by the reader task. -/
inductive ClientOp where
  | connect (urlErr : Option String) (dial : Except String Nat)
  | createContext (contextID : String)
  | getContext (contextID : String)
  | removeContext (contextID : String)
  | handleMessage (parsed : Except String Frame)
  | disconnect (closeErr : Option String)
  | setCallbacks (onConnected onDisconnected onGlobalError : Bool)
  | setSessionCallbacks (contextID : String) (onAudio onError onComplete : Bool)
  | clearSession (contextID : String)

/-- The client after one call; a call that blocks or panics ends the history. -/
def TTSClient.step (decode : Decoder) (c : TTSClient) : ClientOp → Outcome TTSClient
  | ClientOp.connect urlErr dial => Outcome.returned (c.Connect urlErr dial).1
  | ClientOp.createContext contextID => Outcome.returned (c.CreateContext contextID).1
  | ClientOp.getContext _ => Outcome.returned c
  | ClientOp.removeContext contextID => Outcome.returned (c.RemoveContext contextID)
  | ClientOp.handleMessage parsed => Outcome.returned (c.handleMessage decode parsed).1
  | ClientOp.disconnect closeErr =>
    match c.Disconnect closeErr with
    | Outcome.returned r => Outcome.returned r.1
    | Outcome.blocked => Outcome.blocked
    | Outcome.panicked => Outcome.panicked
  | ClientOp.setCallbacks onConnected onDisconnected onGlobalError =>
    Outcome.returned
      { c with
        OnConnected := onConnected
        OnDisconnected := onDisconnected
        OnGlobalError := onGlobalError }
  | ClientOp.setSessionCallbacks contextID onAudio onError onComplete =>
    Outcome.returned (c.setSessionCallbacks contextID onAudio onError onComplete)
  | ClientOp.clearSession contextID => Outcome.returned (c.clearSession contextID)

/-- The client after a history of calls, oldest first. -/
def TTSClient.run (decode : Decoder) (c : TTSClient) : List ClientOp → Outcome TTSClient
  | [] => Outcome.returned c
  | op :: rest =>
    match c.step decode op with
    | Outcome.returned c1 => TTSClient.run decode c1 rest
    | Outcome.blocked => Outcome.blocked
    | Outcome.panicked => Outcome.panicked

/-! ### Concrete states and frames for evaluation -/

/-- A client after `NewTTSClient`, registration of the global-error callback and
a successful `Connect` on transport 1. -/
def connectedClient : TTSClient :=
  ({ NewTTSClient "wss://tts.example" "key" "voice" with OnGlobalError := true }.Connect
    none (Except.ok 1)).1

/-- A connected client with one session, all of whose callbacks are set. -/
def clientWith (contextID : String) : TTSClient :=
  ((connectedClient.CreateContext contextID).1).setSessionCallbacks contextID true true true

/-- A connected client whose only session was created under the empty id. -/
def emptyIDClient : TTSClient := clientWith ""

/-- A connected client with four sessions `a` to `d`. -/
def fourClient : TTSClient :=
  let c1 := (connectedClient.CreateContext "a").1
  let c2 := (c1.CreateContext "b").1
  let c3 := (c2.CreateContext "c").1
  (c3.CreateContext "d").1

/-- A connected client with five sessions `a` to `e`. -/
def fullClient : TTSClient :=
  (fourClient.CreateContext "e").1

/-- The session value `CreateContext` allocates for an id on a transport. -/
def newSession (contextID : String) (ws : Option Nat) : TTSContext :=
  { ContextID := contextID, ws := ws, audioBuffer := [],
    OnAudio := false, OnError := false, OnComplete := false }

/-- A session as `CreateContext` returns it on `connectedClient`. -/
def freshSession : TTSContext :=
  { ContextID := "ctx_001", ws := some 1, audioBuffer := [],
    OnAudio := false, OnError := false, OnComplete := false }

/-- A history: a chunk, a clear, a chunk, a rejected payload, a final chunk. -/
def sampleHistory : List AudioOp :=
  [AudioOp.deliver "AAAA" false, AudioOp.clear, AudioOp.deliver "AQID" false,
    AudioOp.deliver "!" false, AudioOp.deliver "BAUG" true]

/-- A session as `CreateContext` makes it, with all callbacks set. -/
def sampleSession : TTSContext :=
  { ContextID := "ctx_001", ws := some 1, audioBuffer := [],
    OnAudio := true, OnError := true, OnComplete := true }

/-- An audio frame with the given id under `context_id`, payload and `is_final`. -/
def audioFrame (contextID payload : String) (final : Bool) : Frame :=
  [("context_id", JValue.string contextID), ("audio", JValue.string payload),
    ("is_final", JValue.bool final)]

/-- A connected client with sessions under the empty id and under `b`, all of
whose callbacks are set. -/
def emptyAndBClient : TTSClient :=
  ((emptyIDClient.CreateContext "b").1).setSessionCallbacks "b" true true true

/-- An error frame that carries neither `context_id` nor `contextId`. -/
def errorFrameNoID : Frame :=
  [("error", JValue.string "E500"), ("message", JValue.string "boom")]

/-- An audio frame with an empty `context_id` and `contextId` naming `b`. -/
def audioFrameEmptySnake : Frame :=
  [("context_id", JValue.string ""), ("contextId", JValue.string "b"),
    ("audio", JValue.string "AQID"), ("is_final", JValue.bool true)]

/-- The session stored under an id by `clientWith`: fresh, all callbacks set. -/
def listeningSession (contextID : String) : TTSContext :=
  { ContextID := contextID, ws := some 1, audioBuffer := [],
    OnAudio := true, OnError := true, OnComplete := true }

/-- The client state after `Connect` then `Disconnect` (close returning nil). -/
def disconnectedClient : TTSClient :=
  match connectedClient.Disconnect none with
  | Outcome.returned r => r.1
  | Outcome.blocked => connectedClient
  | Outcome.panicked => connectedClient

/-- An error frame whose id is spelled `contextId`. -/
def errorFrameFor (contextID : String) : Frame :=
  [("error", JValue.string "E500"), ("message", JValue.string "boom"),
    ("contextId", JValue.string contextID)]

/-- An audio frame for `a` in both spellings of the final flag, which disagree. -/
def audioFrameBothFlags : Frame :=
  [("context_id", JValue.string "a"), ("contextId", JValue.string "b"),
    ("audio", JValue.string "AQID"), ("isFinal", JValue.bool true),
    ("is_final", JValue.bool false)]

/-- The history that sets the global-error callback, connects on transport 1 and
calls `CreateContext` for `a` to `f`. -/
def sixCreates : List ClientOp :=
  [ClientOp.setCallbacks false false true, ClientOp.connect none (Except.ok 1),
    ClientOp.createContext "a", ClientOp.createContext "b", ClientOp.createContext "c",
    ClientOp.createContext "d", ClientOp.createContext "e", ClientOp.createContext "f"]

/-- An audio frame whose `context_id` names no session and whose `contextId`
names `b`. -/
def audioFrameUnknownSnake : Frame :=
  [("context_id", JValue.string "zzz"), ("contextId", JValue.string "b"),
    ("audio", JValue.string "AQID"), ("is_final", JValue.bool true)]

/-! ## Session buffer -/

theorem foldl_append_eq_join (acc : List Nat) (chunks : List (List Nat)) :
    chunks.foldl (fun result chunk => result ++ chunk) acc = acc ++ chunks.flatten := by
  induction chunks generalizing acc with
  | nil => simp
  | cons chunk rest ih => simp [ih]

theorem GetAllAudio_eq_flatten (ctx : TTSContext) :
    ctx.GetAllAudio = ctx.audioBuffer.flatten := by
  simp [TTSContext.GetAllAudio, foldl_append_eq_join]

theorem applyOps_snoc (decode : Decoder) (ctx : TTSContext) (ops : List AudioOp)
    (op : AudioOp) :
    ctx.applyOps decode (ops ++ [op]) = (ctx.applyOps decode ops).applyOp decode op := by
  simp [TTSContext.applyOps]

theorem decodedBytes_append (decode : Decoder) (xs ys : List AudioOp) :
    decodedBytes decode (xs ++ ys) = decodedBytes decode xs ++ decodedBytes decode ys := by
  induction xs with
  | nil => simp [decodedBytes]
  | cons op rest ih => cases op <;> simp [decodedBytes, ih]

theorem sinceLastClear_snoc_clear (ops : List AudioOp) :
    sinceLastClear (ops ++ [AudioOp.clear]) = [] := by
  simp [sinceLastClear, AudioOp.isClear]

theorem sinceLastClear_snoc_deliver (ops : List AudioOp) (p : String) (f : Bool) :
    sinceLastClear (ops ++ [AudioOp.deliver p f]) =
      sinceLastClear ops ++ [AudioOp.deliver p f] := by
  simp [sinceLastClear, AudioOp.isClear, List.takeWhile]

theorem GetAllAudio_handleAudio (decode : Decoder) (ctx : TTSContext) (p : String)
    (f : Bool) :
    (ctx.handleAudio decode p f).1.GetAllAudio =
      ctx.GetAllAudio ++ decodedBytes decode [AudioOp.deliver p f] := by
  simp only [GetAllAudio_eq_flatten, TTSContext.handleAudio, decodedBytes]
  cases decode p <;> simp

theorem GetAllAudio_applyOps (decode : Decoder) (ctx : TTSContext) (ops : List AudioOp) :
    (ctx.applyOps decode ops).GetAllAudio =
      (if ops.any AudioOp.isClear then [] else ctx.GetAllAudio) ++
        decodedBytes decode (sinceLastClear ops) := by
  induction ops using List.reverseRecOn with
  | nil => simp [TTSContext.applyOps, sinceLastClear, decodedBytes]
  | append_singleton ops op ih =>
    rw [applyOps_snoc]
    cases op with
    | clear =>
      simp [TTSContext.applyOp, sinceLastClear_snoc_clear, decodedBytes, AudioOp.isClear,
        TTSContext.ClearAudioBuffer, TTSContext.GetAllAudio]
    | deliver p f =>
      simp only [TTSContext.applyOp, GetAllAudio_handleAudio, ih,
        sinceLastClear_snoc_deliver, decodedBytes_append, List.any_append, List.any_cons,
        AudioOp.isClear, List.any_nil, Bool.or_false, List.append_assoc]

/-- C1: after any history of audio deliveries and buffer clears, `GetAllAudio`
is the concatenation, in delivery order, of the decoded bytes of the chunks
delivered since the most recent `ClearAudioBuffer`, preceded by the content the
session started with when there was no clear (none for a session as
`CreateContext` makes it); and right after `ClearAudioBuffer` it is empty. -/
theorem C1_getAllAudio_history (decode : Decoder) :
    (∀ (ctx : TTSContext) (ops : List AudioOp),
      (ctx.applyOps decode ops).GetAllAudio =
        (if ops.any AudioOp.isClear then [] else ctx.GetAllAudio) ++
          decodedBytes decode (sinceLastClear ops)) ∧
    (∀ (c : TTSClient) (contextID : String) (created : TTSContext)
        (ops : List AudioOp),
      (c.CreateContext contextID).2 = Except.ok created →
      (created.applyOps decode ops).GetAllAudio =
        decodedBytes decode (sinceLastClear ops)) ∧
    (∀ (ctx : TTSContext) (ops : List AudioOp),
      ((ctx.applyOps decode ops).ClearAudioBuffer).GetAllAudio = []) := by
  refine ⟨GetAllAudio_applyOps decode, ?_, ?_⟩
  · intro c contextID created ops h
    have hbuf : created.GetAllAudio = [] := by
      unfold TTSClient.CreateContext at h
      split_ifs at h
      all_goals simp at h
      subst h
      rfl
    rw [GetAllAudio_applyOps, hbuf]
    simp
  · intro ctx ops
    rfl

/-- Instance of C1: a session made by `CreateContext`, a chunk, a clear, two valid
chunks around a rejected payload. -/
theorem C1_getAllAudio_history_witness :
    (connectedClient.CreateContext "ctx_001").2 = Except.ok freshSession ∧
      (freshSession.applyOps sampleDecoder sampleHistory).GetAllAudio =
        [1, 2, 3, 4, 5, 6] :=
  ⟨by decide,
    ((C1_getAllAudio_history sampleDecoder).2.1 connectedClient "ctx_001" freshSession
      sampleHistory (by decide)).trans (by decide)⟩

/-! ## Audio delivery to one session -/

/-- C5: when the decoder rejects the payload, `handleAudio` calls the error
callback (when set) once with code `DECODE_ERROR` and nothing else: the session
and its buffer are unchanged, so `GetAllAudio` is the same before and after, and
neither the audio callback nor the completion callback is called, whatever the
final flag. -/
theorem C5_invalid_payload (decode : Decoder) (ctx : TTSContext) (audioBase64 : String)
    (isFinal : Bool) (err : String) (hbad : decode audioBase64 = Except.error err) :
    (ctx.handleAudio decode audioBase64 isFinal).2 =
        (if ctx.OnError then
          [Event.onError ctx.ContextID "DECODE_ERROR" ("Failed to decode audio: " ++ err)]
        else []) ∧
      (ctx.handleAudio decode audioBase64 isFinal).1 = ctx ∧
      (ctx.handleAudio decode audioBase64 isFinal).1.GetAllAudio = ctx.GetAllAudio ∧
      (∀ id bytes final,
        Event.onAudio id bytes final ∉ (ctx.handleAudio decode audioBase64 isFinal).2) ∧
      (∀ id, Event.onComplete id ∉ (ctx.handleAudio decode audioBase64 isFinal).2) := by
  have hrun : ctx.handleAudio decode audioBase64 isFinal =
      (ctx, if ctx.OnError then
          [Event.onError ctx.ContextID "DECODE_ERROR" ("Failed to decode audio: " ++ err)]
        else []) := by
    simp only [TTSContext.handleAudio, hbad]
  rw [hrun]
  refine ⟨rfl, rfl, rfl, ?_, ?_⟩
  · intro id bytes final
    split_ifs <;> simp
  · intro id
    split_ifs <;> simp

/-- Instance of C5: the payload `A?ID` is rejected, with the final flag set. -/
theorem C5_invalid_payload_witness :
    sampleDecoder "A?ID" = Except.error "illegal base64 data" ∧
      (sampleSession.handleAudio sampleDecoder "A?ID" true).2 =
        [Event.onError "ctx_001" "DECODE_ERROR"
          "Failed to decode audio: illegal base64 data"] ∧
      (sampleSession.handleAudio sampleDecoder "A?ID" true).1 = sampleSession :=
  ⟨by decide,
    (C5_invalid_payload sampleDecoder sampleSession "A?ID" true "illegal base64 data"
      (by decide)).1,
    (C5_invalid_payload sampleDecoder sampleSession "A?ID" true "illegal base64 data"
      (by decide)).2.1⟩

/-! ## The session mapping -/

theorem mapLookup_mapStore_self (m : ContextMap) (key : String) (ctx : TTSContext) :
    mapLookup (mapStore m key ctx) key = some ctx := by
  induction m with
  | nil => simp [mapStore, mapLookup]
  | cons entry rest ih =>
    obtain ⟨k, v⟩ := entry
    by_cases hk : k = key
    · simp [mapStore, mapLookup, hk]
    · simp [mapStore, mapLookup, hk, ih]

theorem mapLookup_mapStore_ne (m : ContextMap) (key other : String) (ctx : TTSContext)
    (hne : other ≠ key) :
    mapLookup (mapStore m key ctx) other = mapLookup m other := by
  induction m with
  | nil =>
    have hne2 : ¬ key = other := fun h => hne h.symm
    simp [mapStore, mapLookup, hne2]
  | cons entry rest ih =>
    obtain ⟨k, v⟩ := entry
    by_cases hk : k = key
    · subst hk
      have hne2 : ¬ k = other := fun h => hne h.symm
      simp [mapStore, mapLookup, hne2]
    · by_cases ho : k = other
      · subst ho
        simp [mapStore, mapLookup, hk]
      · simp [mapStore, mapLookup, hk, ho, ih]

theorem length_mapStore_of_none (m : ContextMap) (key : String) (ctx : TTSContext)
    (habsent : mapLookup m key = none) :
    (mapStore m key ctx).length = m.length + 1 := by
  induction m with
  | nil => simp [mapStore]
  | cons entry rest ih =>
    obtain ⟨k, v⟩ := entry
    by_cases hk : k = key
    · simp [mapLookup, hk] at habsent
    · simp only [mapLookup, hk, if_false] at habsent
      simp [mapStore, hk, ih habsent]

theorem length_mapStore_of_some (m : ContextMap) (key : String) (ctx old : TTSContext)
    (hpresent : mapLookup m key = some old) :
    (mapStore m key ctx).length = m.length := by
  induction m with
  | nil => simp [mapLookup] at hpresent
  | cons entry rest ih =>
    obtain ⟨k, v⟩ := entry
    by_cases hk : k = key
    · simp [mapStore, hk]
    · simp only [mapLookup, hk, if_false] at hpresent
      simp [mapStore, hk, ih hpresent]

theorem length_mapDelete_le (m : ContextMap) (key : String) :
    (mapDelete m key).length ≤ m.length := by
  unfold mapDelete
  exact List.length_filter_le _ _

/-! ## Creating sessions -/

theorem CreateContext_fresh (c : TTSClient) (contextID : String)
    (hroom : c.contexts.length < 5) (hws : c.ws ≠ none)
    (hnew : mapLookup c.contexts contextID = none) :
    c.CreateContext contextID =
      ({ c with
          contexts := mapStore c.contexts contextID (newSession contextID c.ws) },
        Except.ok (newSession contextID c.ws)) := by
  have hroom2 : ¬ c.contexts.length ≥ 5 := by omega
  simp [TTSClient.CreateContext, hroom2, hws, hnew, newSession]

theorem CreateContext_count_le (c : TTSClient) (contextID : String)
    (hinv : c.contexts.length ≤ 5) :
    (c.CreateContext contextID).1.contexts.length ≤ 5 := by
  unfold TTSClient.CreateContext
  split_ifs with h1 h2 h3
  · exact hinv
  · exact hinv
  · exact hinv
  · have habsent : mapLookup c.contexts contextID = none := by
      cases hl : mapLookup c.contexts contextID with
      | none => rfl
      | some x => simp [hl] at h3
    simp only [length_mapStore_of_none _ _ _ habsent]
    omega

theorem handleMessage_count (decode : Decoder) (c : TTSClient)
    (parsed : Except String Frame) :
    (c.handleMessage decode parsed).1.contexts.length = c.contexts.length := by
  unfold TTSClient.handleMessage
  cases parsed with
  | error e => rfl
  | ok data =>
    simp only
    cases data.asString "error" with
    | some code =>
      simp only
      cases mapLookup c.contexts (resolveContextID data) <;> rfl
    | none =>
      simp only
      split_ifs with hid
      · cases hl : mapLookup c.contexts (resolveContextID data) with
        | none => rfl
        | some ctx =>
          simp only
          cases data.asString "audio" with
          | none => rfl
          | some payload => exact length_mapStore_of_some _ _ _ _ hl
      · rfl

theorem step_count_le (decode : Decoder) (c c1 : TTSClient) (op : ClientOp)
    (hinv : c.contexts.length ≤ 5) (hstep : c.step decode op = Outcome.returned c1) :
    c1.contexts.length ≤ 5 := by
  cases op with
  | connect urlErr dial =>
    simp only [TTSClient.step, Outcome.returned.injEq] at hstep
    subst hstep
    unfold TTSClient.Connect
    cases urlErr with
    | some e => exact hinv
    | none => cases dial <;> exact hinv
  | createContext contextID =>
    simp only [TTSClient.step, Outcome.returned.injEq] at hstep
    subst hstep
    exact CreateContext_count_le c contextID hinv
  | getContext contextID =>
    simp only [TTSClient.step, Outcome.returned.injEq] at hstep
    subst hstep
    exact hinv
  | removeContext contextID =>
    simp only [TTSClient.step, Outcome.returned.injEq] at hstep
    subst hstep
    exact le_trans (length_mapDelete_le _ _) hinv
  | handleMessage parsed =>
    simp only [TTSClient.step, Outcome.returned.injEq] at hstep
    subst hstep
    rw [handleMessage_count]
    exact hinv
  | disconnect closeErr =>
    simp only [TTSClient.step] at hstep
    cases hd : c.Disconnect closeErr with
    | blocked => simp [hd] at hstep
    | panicked => simp [hd] at hstep
    | returned r =>
      simp only [hd, Outcome.returned.injEq] at hstep
      subst hstep
      unfold TTSClient.Disconnect at hd
      cases hws : c.ws with
      | none =>
        simp only [hws, Outcome.returned.injEq] at hd
        subst hd
        exact hinv
      | some conn =>
        simp only [hws] at hd
        split at hd
        · split_ifs at hd
          simp only [Outcome.returned.injEq] at hd
          subst hd
          simp
        · simp at hd
        · simp at hd
  | setCallbacks a b d =>
    simp only [TTSClient.step, Outcome.returned.injEq] at hstep
    subst hstep
    exact hinv
  | setSessionCallbacks contextID a b d =>
    simp only [TTSClient.step, Outcome.returned.injEq] at hstep
    subst hstep
    unfold TTSClient.setSessionCallbacks
    cases hl : mapLookup c.contexts contextID with
    | none => exact hinv
    | some ctx =>
      simp only [length_mapStore_of_some _ _ _ _ hl]
      exact hinv
  | clearSession contextID =>
    simp only [TTSClient.step, Outcome.returned.injEq] at hstep
    subst hstep
    unfold TTSClient.clearSession
    cases hl : mapLookup c.contexts contextID with
    | none => exact hinv
    | some ctx =>
      simp only [length_mapStore_of_some _ _ _ _ hl]
      exact hinv

theorem run_count_le (decode : Decoder) (ops : List ClientOp) (c c1 : TTSClient)
    (hinv : c.contexts.length ≤ 5) (hrun : c.run decode ops = Outcome.returned c1) :
    c1.contexts.length ≤ 5 := by
  induction ops generalizing c with
  | nil =>
    simp only [TTSClient.run, Outcome.returned.injEq] at hrun
    subst hrun
    exact hinv
  | cons op rest ih =>
    simp only [TTSClient.run] at hrun
    cases hs : c.step decode op with
    | returned c2 =>
      simp only [hs] at hrun
      exact ih c2 (step_count_le decode c c2 op hinv hs) hrun
    | blocked => simp [hs] at hrun
    | panicked => simp [hs] at hrun

/-- C2: on a client that holds a transport, `CreateContext` with an id not in the
mapping succeeds whenever fewer than 5 sessions are live: it returns the new
session, `GetContext` of the id then returns that session and the count grows
by one (so the 5th call succeeds); with 5 live sessions it fails with the
capacity error and leaves the client unchanged.  `CreateContext` never takes
the count above 5, and no history of calls from `NewTTSClient` reaches a state
with more than 5 live sessions. -/
theorem C2_capacity (c : TTSClient) (contextID : String) (hws : c.ws ≠ none)
    (hnew : mapLookup c.contexts contextID = none) :
    (c.GetActiveContextCount < 5 →
      ∃ created, (c.CreateContext contextID).2 = Except.ok created ∧
        (c.CreateContext contextID).1.GetContext contextID = some created ∧
        (c.CreateContext contextID).1.GetActiveContextCount =
          c.GetActiveContextCount + 1) ∧
    (c.GetActiveContextCount = 5 →
      c.CreateContext contextID =
        (c, Except.error "maximum 5 contexts allowed per connection")) ∧
    (c.GetActiveContextCount ≤ 5 →
      (c.CreateContext contextID).1.GetActiveContextCount ≤ 5) ∧
    (∀ (decode : Decoder) (baseURL apiKey voiceID : String) (ops : List ClientOp)
        (reached : TTSClient),
      (NewTTSClient baseURL apiKey voiceID).run decode ops = Outcome.returned reached →
      reached.GetActiveContextCount ≤ 5) := by
  refine ⟨?_, ?_, ?_, ?_⟩
  · intro hroom
    refine ⟨newSession contextID c.ws, ?_, ?_, ?_⟩
    · rw [CreateContext_fresh c contextID hroom hws hnew]
    · rw [CreateContext_fresh c contextID hroom hws hnew]
      exact mapLookup_mapStore_self _ _ _
    · rw [CreateContext_fresh c contextID hroom hws hnew]
      exact length_mapStore_of_none _ _ _ hnew
  · intro hfull
    have hfull2 : c.contexts.length ≥ 5 := by
      simp only [TTSClient.GetActiveContextCount] at hfull
      omega
    simp [TTSClient.CreateContext, hfull2]
  · intro hinv
    exact CreateContext_count_le c contextID hinv
  · intro decode baseURL apiKey voiceID ops reached hrun
    exact run_count_le decode ops _ reached (by simp [NewTTSClient]) hrun

/-- Instance of C2: the fifth `CreateContext` succeeds, the sixth fails, and the
history that makes six `CreateContext` calls after `Connect` ends with 5 sessions. -/
theorem C2_capacity_witness :
    (fourClient.ws ≠ none ∧ mapLookup fourClient.contexts "e" = none ∧
      fourClient.GetActiveContextCount = 4 ∧
      ∃ created, (fourClient.CreateContext "e").2 = Except.ok created ∧
        (fourClient.CreateContext "e").1.GetContext "e" = some created ∧
        (fourClient.CreateContext "e").1.GetActiveContextCount =
          fourClient.GetActiveContextCount + 1) ∧
    (fullClient.ws ≠ none ∧ mapLookup fullClient.contexts "f" = none ∧
      fullClient.GetActiveContextCount = 5 ∧
      fullClient.CreateContext "f" =
        (fullClient, Except.error "maximum 5 contexts allowed per connection")) ∧
    ((NewTTSClient "wss://tts.example" "key" "voice").run sampleDecoder sixCreates =
        Outcome.returned fullClient ∧
      fullClient.GetActiveContextCount ≤ 5) :=
  ⟨⟨by decide, by decide, by decide,
      (C2_capacity fourClient "e" (by decide) (by decide)).1 (by decide)⟩,
    ⟨by decide, by decide, by decide,
      (C2_capacity fullClient "f" (by decide) (by decide)).2.1 (by decide)⟩,
    ⟨by decide,
      (C2_capacity fullClient "f" (by decide) (by decide)).2.2.2 sampleDecoder
        "wss://tts.example" "key" "voice" sixCreates fullClient (by decide)⟩⟩

/-- C3, as the claim states it, fails: with 5 live sessions `a` to `e`,
`CreateContext` of the present id `a` fails with the capacity error, which is
not the duplicate-id error. -/
theorem C3_counterexample_capacity_first :
    (mapLookup fullClient.contexts "a").isSome = true ∧
      (fullClient.CreateContext "a").2 =
        Except.error "maximum 5 contexts allowed per connection" ∧
      (fullClient.CreateContext "a").2 ≠ Except.error "context a already exists" := by
  decide

/-- C3 (amended): for every client state and every id present in the mapping,
`CreateContext` with that id fails and leaves the client unchanged, so the
mapping, the session stored under the id and its audio buffer are the same.
The error is the duplicate-id error when the client holds fewer than 5 sessions
and a transport; with 5 or more sessions it is the capacity error, and with
fewer than 5 sessions and no transport it is the not-connected error. -/
theorem C3_duplicate_id (c : TTSClient) (contextID : String) (existing : TTSContext)
    (hpresent : mapLookup c.contexts contextID = some existing) :
    (c.CreateContext contextID).1 = c ∧
    (c.CreateContext contextID).1.GetContext contextID = some existing ∧
    (∃ err, (c.CreateContext contextID).2 = Except.error err) ∧
    (c.GetActiveContextCount < 5 → c.ws ≠ none →
      (c.CreateContext contextID).2 =
        Except.error ("context " ++ contextID ++ " already exists")) ∧
    (c.GetActiveContextCount ≥ 5 →
      (c.CreateContext contextID).2 =
        Except.error "maximum 5 contexts allowed per connection") ∧
    (c.GetActiveContextCount < 5 → c.ws = none →
      (c.CreateContext contextID).2 = Except.error "websocket is not connected") := by
  have hsame : (c.CreateContext contextID).1 = c := by
    unfold TTSClient.CreateContext
    split_ifs with h1 h2 h3
    · rfl
    · rfl
    · rfl
    · simp [hpresent] at h3
  refine ⟨hsame, ?_, ?_, ?_, ?_, ?_⟩
  · rw [hsame]
    exact hpresent
  · unfold TTSClient.CreateContext
    split_ifs with h1 h2 h3
    · exact ⟨_, rfl⟩
    · exact ⟨_, rfl⟩
    · exact ⟨_, rfl⟩
    · simp [hpresent] at h3
  · intro hroom hws
    have hroom2 : ¬ c.contexts.length ≥ 5 := by
      simp only [TTSClient.GetActiveContextCount] at hroom
      omega
    simp [TTSClient.CreateContext, hroom2, hws, hpresent]
  · intro hfull
    have hfull2 : c.contexts.length ≥ 5 := hfull
    simp [TTSClient.CreateContext, hfull2]
  · intro hroom hws
    have hroom2 : ¬ c.contexts.length ≥ 5 := by
      simp only [TTSClient.GetActiveContextCount] at hroom
      omega
    simp [TTSClient.CreateContext, hroom2, hws]

/-- Instance of C3 (amended): four live sessions, `CreateContext` of the present id `b`. -/
theorem C3_duplicate_id_witness :
    mapLookup fourClient.contexts "b" = some (newSession "b" (some 1)) ∧
      (fourClient.CreateContext "b").1 = fourClient ∧
      (fourClient.CreateContext "b").2 = Except.error "context b already exists" :=
  ⟨by decide,
    (C3_duplicate_id fourClient "b" (newSession "b" (some 1)) (by decide)).1,
    (C3_duplicate_id fourClient "b" (newSession "b" (some 1)) (by decide)).2.2.2.1
      (by decide) (by decide)⟩

/-! ## Frame routing -/

theorem handleMessage_error_frame (decode : Decoder) (c : TTSClient) (data : Frame)
    (errorCode : String) (herr : data.asString "error" = some errorCode) :
    c.handleMessage decode (Except.ok data) =
      (c, match mapLookup c.contexts (resolveContextID data) with
          | some context =>
            context.handleError errorCode ((data.asString "message").getD "")
          | none =>
            if c.OnGlobalError then
              [Event.onGlobalError
                (errorCode ++ ": " ++ (data.asString "message").getD "")]
            else []) := by
  simp only [TTSClient.handleMessage, herr]
  cases mapLookup c.contexts (resolveContextID data) <;> rfl

theorem handleMessage_audio_frame (decode : Decoder) (c : TTSClient) (data : Frame)
    (ctx : TTSContext) (payload : String)
    (hnoerr : data.asString "error" = none)
    (hid : resolveContextID data ≠ "")
    (hlive : mapLookup c.contexts (resolveContextID data) = some ctx)
    (hpayload : data.asString "audio" = some payload) :
    c.handleMessage decode (Except.ok data) =
      ({ c with
          contexts := mapStore c.contexts (resolveContextID data)
            (ctx.handleAudio decode payload (resolveIsFinal data)).1 },
        (ctx.handleAudio decode payload (resolveIsFinal data)).2) := by
  simp only [TTSClient.handleMessage, hnoerr, hlive, hpayload]
  simp [hid]

theorem handleMessage_empty_id (decode : Decoder) (c : TTSClient) (data : Frame)
    (hnoerr : data.asString "error" = none) (hid : resolveContextID data = "") :
    c.handleMessage decode (Except.ok data) = (c, []) := by
  simp [TTSClient.handleMessage, hnoerr, hid]

theorem handleMessage_not_live (decode : Decoder) (c : TTSClient) (data : Frame)
    (hnoerr : data.asString "error" = none)
    (hdead : mapLookup c.contexts (resolveContextID data) = none) :
    c.handleMessage decode (Except.ok data) = (c, []) := by
  simp only [TTSClient.handleMessage, hnoerr, hdead]
  split_ifs <;> rfl

theorem handleMessage_no_audio (decode : Decoder) (c : TTSClient) (data : Frame)
    (hnoerr : data.asString "error" = none)
    (hnoaudio : data.asString "audio" = none) :
    c.handleMessage decode (Except.ok data) = (c, []) := by
  simp only [TTSClient.handleMessage, hnoerr, hnoaudio]
  split_ifs
  · cases mapLookup c.contexts (resolveContextID data) <;> rfl
  · rfl

theorem handleMessage_other_session (decode : Decoder) (c : TTSClient) (data : Frame)
    (other : String) (hother : other ≠ resolveContextID data) :
    (c.handleMessage decode (Except.ok data)).1.GetContext other =
      c.GetContext other := by
  unfold TTSClient.handleMessage
  simp only
  cases data.asString "error" with
  | some code =>
    simp only
    cases mapLookup c.contexts (resolveContextID data) <;> rfl
  | none =>
    simp only
    split_ifs with hid
    · cases mapLookup c.contexts (resolveContextID data) with
      | none => rfl
      | some ctx =>
        simp only
        cases data.asString "audio" with
        | none => rfl
        | some payload =>
          exact mapLookup_mapStore_ne _ _ _ _ hother
    · rfl

/-- C4, as the claim states it, fails, in two ways.  First, a session is live
under the empty id with all callbacks set, the frame names it in `context_id`,
carries the valid payload `AQID` and `is_final = true`, and handling it calls no
callback and buffers nothing.  Second, a frame for the live session `a` has
`isFinal = true` next to `is_final = false`, and handling it calls the audio
callback with the flag false and never the completion callback. -/
theorem C4_counterexample_empty_id_and_flag :
    (emptyIDClient.GetContext "" = some (listeningSession "") ∧
      resolveContextID (audioFrame "" "AQID" true) = "" ∧
      Frame.asString (audioFrame "" "AQID" true) "audio" = some "AQID" ∧
      sampleDecoder "AQID" = Except.ok [1, 2, 3] ∧
      Frame.asBool (audioFrame "" "AQID" true) "is_final" = some true ∧
      emptyIDClient.handleMessage sampleDecoder (Except.ok (audioFrame "" "AQID" true)) =
        (emptyIDClient, [])) ∧
    ((clientWith "a").GetContext "a" = some (listeningSession "a") ∧
      resolveContextID audioFrameBothFlags = "a" ∧
      Frame.asBool audioFrameBothFlags "isFinal" = some true ∧
      ((clientWith "a").handleMessage sampleDecoder (Except.ok audioFrameBothFlags)).2 =
        [Event.onAudio "a" [1, 2, 3] false]) := by
  decide

/-- C4 (amended): for every audio frame (no string `error` field, a string
`audio` field) whose context id is not the empty string and names a live
session, with a payload the decoder accepts, handling the frame calls the audio
callback (when set) with the decoded bytes and then, when the final flag is
true, the completion callback (when set): exactly once and last.  When the
final flag is false the completion callback is not called.  The final flag is
`is_final` when that is a boolean, otherwise `isFinal`. -/
theorem C4_final_frame (decode : Decoder) (c : TTSClient) (data : Frame)
    (ctx : TTSContext) (payload : String) (bytes : List Nat)
    (hnoerr : data.asString "error" = none)
    (hid : resolveContextID data ≠ "")
    (hlive : c.GetContext (resolveContextID data) = some ctx)
    (hpayload : data.asString "audio" = some payload)
    (hvalid : decode payload = Except.ok bytes) :
    (c.handleMessage decode (Except.ok data)).2 =
        (if ctx.OnAudio then
          [Event.onAudio ctx.ContextID bytes (resolveIsFinal data)] else []) ++
        (if resolveIsFinal data && ctx.OnComplete then
          [Event.onComplete ctx.ContextID] else []) ∧
      (resolveIsFinal data = true → ctx.OnAudio = true → ctx.OnComplete = true →
        (c.handleMessage decode (Except.ok data)).2 =
          [Event.onAudio ctx.ContextID bytes true, Event.onComplete ctx.ContextID]) ∧
      (resolveIsFinal data = true → ctx.OnComplete = true →
        (c.handleMessage decode (Except.ok data)).2.count
          (Event.onComplete ctx.ContextID) = 1) ∧
      (resolveIsFinal data = false →
        ∀ id, Event.onComplete id ∉ (c.handleMessage decode (Except.ok data)).2) ∧
      (data.asBool "is_final" = some true → resolveIsFinal data = true) ∧
      (data.asBool "is_final" = none → data.asBool "isFinal" = some true →
        resolveIsFinal data = true) := by
  have hrun := handleMessage_audio_frame decode c data ctx payload hnoerr hid hlive hpayload
  have hevents : (c.handleMessage decode (Except.ok data)).2 =
      (if ctx.OnAudio then
        [Event.onAudio ctx.ContextID bytes (resolveIsFinal data)] else []) ++
      (if resolveIsFinal data && ctx.OnComplete then
        [Event.onComplete ctx.ContextID] else []) := by
    rw [hrun]
    simp only [TTSContext.handleAudio, hvalid]
  refine ⟨hevents, ?_, ?_, ?_, ?_, ?_⟩
  · intro hfinal haudio hcomplete
    rw [hevents]
    simp [hfinal, haudio, hcomplete]
  · intro hfinal hcomplete
    rw [hevents]
    cases ctx.OnAudio <;> simp [hfinal, hcomplete]
  · intro hfinal id
    rw [hevents]
    cases ctx.OnAudio <;> simp [hfinal]
  · intro h
    simp [resolveIsFinal, h]
  · intro h1 h2
    simp [resolveIsFinal, h1, h2]

/-- Instance of C4 (amended): a final frame for the live session `ctx_001`. -/
theorem C4_final_frame_witness :
    (clientWith "ctx_001").GetContext "ctx_001" = some (listeningSession "ctx_001") ∧
      sampleDecoder "AQID" = Except.ok [1, 2, 3] ∧
      ((clientWith "ctx_001").handleMessage sampleDecoder
          (Except.ok (audioFrame "ctx_001" "AQID" true))).2 =
        [Event.onAudio "ctx_001" [1, 2, 3] true, Event.onComplete "ctx_001"] :=
  ⟨by decide, by decide,
    (C4_final_frame sampleDecoder (clientWith "ctx_001") (audioFrame "ctx_001" "AQID" true)
      (listeningSession "ctx_001") "AQID" [1, 2, 3] (by decide) (by decide) (by decide)
      (by decide) (by decide)).2.1 (by decide) (by decide) (by decide)⟩

/-- C6: an error frame (string `error` field) bearing a context id is routed by
that id.  When the id matches no live session, the client is unchanged (no
session's buffer changes) and the only callback called is the global-error
callback (when set), once, with the text `code: message`.  When the id matches
a live session, the client is unchanged and the only callback called is that
session's error callback (when set), with the code and the message; the
global-error callback is not called. -/
theorem C6_error_routing (decode : Decoder) (c : TTSClient) (data : Frame)
    (errorCode : String) (herr : data.asString "error" = some errorCode)
    (hbears : (data.asString "context_id").isSome ∨ (data.asString "contextId").isSome) :
    (data.asString "context_id" = some (resolveContextID data) ∨
      data.asString "contextId" = some (resolveContextID data)) ∧
    (c.GetContext (resolveContextID data) = none →
      c.handleMessage decode (Except.ok data) =
        (c, if c.OnGlobalError then
              [Event.onGlobalError
                (errorCode ++ ": " ++ (data.asString "message").getD "")]
            else [])) ∧
    (∀ ctx, c.GetContext (resolveContextID data) = some ctx →
      c.handleMessage decode (Except.ok data) =
        (c, if ctx.OnError then
              [Event.onError ctx.ContextID errorCode
                ((data.asString "message").getD "")]
            else [])) := by
  refine ⟨?_, ?_, ?_⟩
  · unfold resolveContextID
    cases hs : data.asString "context_id" with
    | some id => exact Or.inl rfl
    | none =>
      cases hc : data.asString "contextId" with
      | some id => exact Or.inr rfl
      | none => simp [hs, hc] at hbears
  · intro hnone
    rw [handleMessage_error_frame decode c data errorCode herr]
    simp only [TTSClient.GetContext] at hnone
    simp only [hnone]
  · intro ctx hsome
    rw [handleMessage_error_frame decode c data errorCode herr]
    simp only [TTSClient.GetContext] at hsome
    simp only [hsome, TTSContext.handleError]

/-- Instance of C6: an error frame for an unknown id, and one for the live session `a`. -/
theorem C6_error_routing_witness :
    ((clientWith "a").GetContext "zzz" = none ∧
      (clientWith "a").handleMessage sampleDecoder (Except.ok (errorFrameFor "zzz")) =
        (clientWith "a", [Event.onGlobalError "E500: boom"])) ∧
    ((clientWith "a").GetContext "a" = some (listeningSession "a") ∧
      (clientWith "a").handleMessage sampleDecoder (Except.ok (errorFrameFor "a")) =
        (clientWith "a", [Event.onError "a" "E500" "boom"])) :=
  ⟨⟨by decide,
      (C6_error_routing sampleDecoder (clientWith "a") (errorFrameFor "zzz") "E500"
        (by decide) (by decide)).2.1 (by decide)⟩,
    ⟨by decide,
      (C6_error_routing sampleDecoder (clientWith "a") (errorFrameFor "a") "E500"
        (by decide) (by decide)).2.2 (listeningSession "a") (by decide)⟩⟩

/-- C9, as the claim states it, fails: `context_id` (the empty string) and
`contextId` (`b`) are both strings, sessions are live under both ids, and the
audio frame is dropped instead of being routed to the session `context_id`
names. -/
theorem C9_counterexample_empty_snake_id :
    Frame.asString audioFrameEmptySnake "context_id" = some "" ∧
      Frame.asString audioFrameEmptySnake "contextId" = some "b" ∧
      emptyAndBClient.GetContext "" = some (listeningSession "") ∧
      emptyAndBClient.GetContext "b" = some (listeningSession "b") ∧
      Frame.asString audioFrameEmptySnake "audio" = some "AQID" ∧
      sampleDecoder "AQID" = Except.ok [1, 2, 3] ∧
      emptyAndBClient.handleMessage sampleDecoder (Except.ok audioFrameEmptySnake) =
        (emptyAndBClient, []) := by
  decide

/-- C9 (amended): snake-case wins.  (1) When `context_id` and `contextId` are
both strings, the frame is handled by `context_id` alone, in every case: an
error frame goes to the session stored under `context_id`, else to the
global-error callback; an audio frame is delivered to the session stored under
`context_id` when that id is not the empty string; a frame with no error field
is dropped, with the client unchanged and no callback called, when `context_id`
is the empty string, when no session is stored under `context_id`, or when it
has no string `audio` field.  So no callback of the session named by `contextId`
is ever called for it, and the session stored under a different `contextId` is
unchanged.  (2) When `is_final` and `isFinal` are both booleans, the flag
delivered with the audio is `is_final`.  (3) When `context_id` is not a string
and `contextId` is, the same holds with `contextId` as the id.  (4) When
`is_final` is not a boolean and `isFinal` is, the flag is `isFinal`. -/
theorem C9_snake_case_preferred (decode : Decoder) (c : TTSClient) (data : Frame) :
    (∀ snake camel, data.asString "context_id" = some snake →
      data.asString "contextId" = some camel →
      (∀ code, data.asString "error" = some code →
        c.handleMessage decode (Except.ok data) =
          (c, match mapLookup c.contexts snake with
              | some ctx => ctx.handleError code ((data.asString "message").getD "")
              | none =>
                if c.OnGlobalError then
                  [Event.onGlobalError (code ++ ": " ++ (data.asString "message").getD "")]
                else [])) ∧
      (∀ ctx payload, data.asString "error" = none → snake ≠ "" →
        c.GetContext snake = some ctx → data.asString "audio" = some payload →
        c.handleMessage decode (Except.ok data) =
          ({ c with
              contexts := mapStore c.contexts snake
                (ctx.handleAudio decode payload (resolveIsFinal data)).1 },
            (ctx.handleAudio decode payload (resolveIsFinal data)).2)) ∧
      (data.asString "error" = none → snake = "" →
        c.handleMessage decode (Except.ok data) = (c, [])) ∧
      (camel ≠ snake →
        (c.handleMessage decode (Except.ok data)).1.GetContext camel =
          c.GetContext camel) ∧
      (data.asString "error" = none → c.GetContext snake = none →
        c.handleMessage decode (Except.ok data) = (c, [])) ∧
      (data.asString "error" = none → data.asString "audio" = none →
        c.handleMessage decode (Except.ok data) = (c, []))) ∧
    (∀ (snakeFlag camelFlag : Bool) ctx payload,
      data.asBool "is_final" = some snakeFlag → data.asBool "isFinal" = some camelFlag →
      data.asString "error" = none → resolveContextID data ≠ "" →
      c.GetContext (resolveContextID data) = some ctx →
      data.asString "audio" = some payload →
      c.handleMessage decode (Except.ok data) =
        ({ c with
            contexts := mapStore c.contexts (resolveContextID data)
              (ctx.handleAudio decode payload snakeFlag).1 },
          (ctx.handleAudio decode payload snakeFlag).2)) ∧
    (∀ camel, data.asString "context_id" = none →
      data.asString "contextId" = some camel →
      (∀ code, data.asString "error" = some code →
        c.handleMessage decode (Except.ok data) =
          (c, match mapLookup c.contexts camel with
              | some ctx => ctx.handleError code ((data.asString "message").getD "")
              | none =>
                if c.OnGlobalError then
                  [Event.onGlobalError (code ++ ": " ++ (data.asString "message").getD "")]
                else [])) ∧
      (∀ ctx payload, data.asString "error" = none → camel ≠ "" →
        c.GetContext camel = some ctx → data.asString "audio" = some payload →
        c.handleMessage decode (Except.ok data) =
          ({ c with
              contexts := mapStore c.contexts camel
                (ctx.handleAudio decode payload (resolveIsFinal data)).1 },
            (ctx.handleAudio decode payload (resolveIsFinal data)).2)) ∧
      (data.asString "error" = none → camel = "" →
        c.handleMessage decode (Except.ok data) = (c, [])) ∧
      (data.asString "error" = none → c.GetContext camel = none →
        c.handleMessage decode (Except.ok data) = (c, [])) ∧
      (data.asString "error" = none → data.asString "audio" = none →
        c.handleMessage decode (Except.ok data) = (c, []))) ∧
    (∀ (camelFlag : Bool) ctx payload,
      data.asBool "is_final" = none → data.asBool "isFinal" = some camelFlag →
      data.asString "error" = none → resolveContextID data ≠ "" →
      c.GetContext (resolveContextID data) = some ctx →
      data.asString "audio" = some payload →
      c.handleMessage decode (Except.ok data) =
        ({ c with
            contexts := mapStore c.contexts (resolveContextID data)
              (ctx.handleAudio decode payload camelFlag).1 },
          (ctx.handleAudio decode payload camelFlag).2)) := by
  refine ⟨?_, ?_, ?_, ?_⟩
  · intro snake camel hsnake hcamel
    have hres : resolveContextID data = snake := by simp [resolveContextID, hsnake]
    refine ⟨?_, ?_, ?_, ?_, ?_, ?_⟩
    · intro code herr
      rw [handleMessage_error_frame decode c data code herr, hres]
    · intro ctx payload hnoerr hne hlive hpayload
      have h := handleMessage_audio_frame decode c data ctx payload hnoerr
        (by rw [hres]; exact hne) (by rw [hres]; exact hlive) hpayload
      rw [hres] at h
      exact h
    · intro hnoerr hempty
      exact handleMessage_empty_id decode c data hnoerr (by rw [hres]; exact hempty)
    · intro hdiff
      exact handleMessage_other_session decode c data camel (by rw [hres]; exact hdiff)
    · intro hnoerr hdead
      exact handleMessage_not_live decode c data hnoerr (by rw [hres]; exact hdead)
    · intro hnoerr hnoaudio
      exact handleMessage_no_audio decode c data hnoerr hnoaudio
  · intro snakeFlag camelFlag ctx payload hsf hcf hnoerr hid hlive hpayload
    have hflag : resolveIsFinal data = snakeFlag := by simp [resolveIsFinal, hsf]
    have h := handleMessage_audio_frame decode c data ctx payload hnoerr hid hlive hpayload
    rw [hflag] at h
    exact h
  · intro camel hsnake hcamel
    have hres : resolveContextID data = camel := by
      simp [resolveContextID, hsnake, hcamel]
    refine ⟨?_, ?_, ?_, ?_, ?_⟩
    · intro code herr
      rw [handleMessage_error_frame decode c data code herr, hres]
    · intro ctx payload hnoerr hne hlive hpayload
      have h := handleMessage_audio_frame decode c data ctx payload hnoerr
        (by rw [hres]; exact hne) (by rw [hres]; exact hlive) hpayload
      rw [hres] at h
      exact h
    · intro hnoerr hempty
      exact handleMessage_empty_id decode c data hnoerr (by rw [hres]; exact hempty)
    · intro hnoerr hdead
      exact handleMessage_not_live decode c data hnoerr (by rw [hres]; exact hdead)
    · intro hnoerr hnoaudio
      exact handleMessage_no_audio decode c data hnoerr hnoaudio
  · intro camelFlag ctx payload hsf hcf hnoerr hid hlive hpayload
    have hflag : resolveIsFinal data = camelFlag := by simp [resolveIsFinal, hsf, hcf]
    have h := handleMessage_audio_frame decode c data ctx payload hnoerr hid hlive hpayload
    rw [hflag] at h
    exact h

/-- Instance of C9 (amended): both spellings present and disagreeing, for the id and
for the final flag; and a frame whose `context_id` names no session while its
`contextId` names the live session `b`, which is dropped. -/
theorem C9_snake_case_preferred_witness :
    (Frame.asString audioFrameBothFlags "context_id" = some "a" ∧
      Frame.asString audioFrameBothFlags "contextId" = some "b" ∧
      (clientWith "a").GetContext "a" = some (listeningSession "a") ∧
      TTSClient.GetContext
          ((clientWith "a").handleMessage sampleDecoder (Except.ok audioFrameBothFlags)).1
          "a" =
        some { listeningSession "a" with audioBuffer := [[1, 2, 3]] }) ∧
    (Frame.asBool audioFrameBothFlags "is_final" = some false ∧
      Frame.asBool audioFrameBothFlags "isFinal" = some true ∧
      ((clientWith "a").handleMessage sampleDecoder (Except.ok audioFrameBothFlags)).2 =
        [Event.onAudio "a" [1, 2, 3] false]) ∧
    (Frame.asString audioFrameUnknownSnake "context_id" = some "zzz" ∧
      Frame.asString audioFrameUnknownSnake "contextId" = some "b" ∧
      emptyAndBClient.GetContext "zzz" = none ∧
      emptyAndBClient.GetContext "b" = some (listeningSession "b") ∧
      emptyAndBClient.handleMessage sampleDecoder (Except.ok audioFrameUnknownSnake) =
        (emptyAndBClient, [])) :=
  ⟨⟨by decide, by decide, by decide,
      (congrArg (fun r => r.1.GetContext "a")
        (((C9_snake_case_preferred sampleDecoder (clientWith "a") audioFrameBothFlags).1
          "a" "b" (by decide) (by decide)).2.1 (listeningSession "a") "AQID"
          (by decide) (by decide) (by decide) (by decide))).trans (by decide)⟩,
    ⟨by decide, by decide,
      (congrArg Prod.snd
        ((C9_snake_case_preferred sampleDecoder (clientWith "a") audioFrameBothFlags).2.1
          false true (listeningSession "a") "AQID" (by decide) (by decide) (by decide)
          (by decide) (by decide) (by decide))).trans (by decide)⟩,
    ⟨by decide, by decide, by decide, by decide,
      ((C9_snake_case_preferred sampleDecoder emptyAndBClient audioFrameUnknownSnake).1
        "zzz" "b" (by decide) (by decide)).2.2.2.2.1 (by decide) (by decide)⟩⟩

/-! ## Frames without a context id -/

theorem handleMessage_no_id_not_error (decode : Decoder) (c : TTSClient) (data : Frame)
    (hnoerr : data.asString "error" = none)
    (hsnake : data.asString "context_id" = none)
    (hcamel : data.asString "contextId" = none) :
    c.handleMessage decode (Except.ok data) = (c, []) :=
  handleMessage_empty_id decode c data hnoerr (by simp [resolveContextID, hsnake, hcamel])

/-- C10, evaluated where the code departs from the claim: the frame is an error
frame with neither `context_id` nor `contextId`, a session is live under the
empty id, and the error is delivered to that session's error callback; the
global-error callback, which is set, is not called. -/
theorem C10_error_without_id_reaches_empty_session :
    Frame.asString errorFrameNoID "error" = some "E500" ∧
      Frame.asString errorFrameNoID "context_id" = none ∧
      Frame.asString errorFrameNoID "contextId" = none ∧
      emptyIDClient.GetContext "" = some (listeningSession "") ∧
      emptyIDClient.OnGlobalError = true ∧
      emptyIDClient.handleMessage sampleDecoder (Except.ok errorFrameNoID) =
        (emptyIDClient, [Event.onError "" "E500" "boom"]) := by
  decide

/-! ## Disconnecting -/

theorem Disconnect_again_returns (c c1 : TTSClient) (closeErr again : Option String)
    (err : Option String) (events : List Event)
    (hfirst : c.Disconnect closeErr = Outcome.returned (c1, err, events)) :
    c1.Disconnect again =
      Outcome.returned (c1, (match c1.ws with | some _ => again | none => none),
        (match c1.ws with | some conn => [Event.wsClose conn] | none => [])) := by
  unfold TTSClient.Disconnect at hfirst
  cases hws : c.ws with
  | none =>
    simp only [hws, Outcome.returned.injEq, Prod.mk.injEq] at hfirst
    obtain ⟨hc, -, -⟩ := hfirst
    subst hc
    simp [TTSClient.Disconnect, hws]
  | some conn =>
    simp only [hws] at hfirst
    by_cases hreader : c.reader = true
    · by_cases hdone : c.done = true
      · simp [hreader, hdone, TTSClient.receiveMessagesExit] at hfirst
      · simp only [hreader, hdone, TTSClient.receiveMessagesExit, if_true,
          Bool.false_eq_true, if_false, Outcome.returned.injEq, Prod.mk.injEq] at hfirst
        obtain ⟨hc, -, -⟩ := hfirst
        subst hc
        simp [TTSClient.Disconnect, hws]
    · by_cases hdone : c.done = true
      · simp only [hreader, hdone, Bool.false_eq_true, if_false, if_true,
          Outcome.returned.injEq, Prod.mk.injEq] at hfirst
        obtain ⟨hc, -, -⟩ := hfirst
        subst hc
        simp [TTSClient.Disconnect, hws, hreader, hdone]
      · simp [hreader, hdone] at hfirst

theorem Disconnect_keeps_transport (c c1 : TTSClient) (closeErr err : Option String)
    (events : List Event) (hheld : c.ws ≠ none)
    (hfirst : c.Disconnect closeErr = Outcome.returned (c1, err, events)) :
    c1.ws = c.ws ∧ c1.IsConnected = true ∧ c1.contexts = [] := by
  unfold TTSClient.Disconnect at hfirst
  cases hws : c.ws with
  | none => exact absurd hws hheld
  | some conn =>
    simp only [hws] at hfirst
    by_cases hreader : c.reader = true
    · by_cases hdone : c.done = true
      · simp [hreader, hdone, TTSClient.receiveMessagesExit] at hfirst
      · simp only [hreader, hdone, TTSClient.receiveMessagesExit, if_true,
          Bool.false_eq_true, if_false, Outcome.returned.injEq, Prod.mk.injEq] at hfirst
        obtain ⟨hc, -, -⟩ := hfirst
        subst hc
        simp [TTSClient.IsConnected, hws]
    · by_cases hdone : c.done = true
      · simp only [hreader, hdone, Bool.false_eq_true, if_false, if_true,
          Outcome.returned.injEq, Prod.mk.injEq] at hfirst
        obtain ⟨hc, -, -⟩ := hfirst
        subst hc
        simp [TTSClient.IsConnected, hws]
      · simp [hreader, hdone] at hfirst

/-- C7, evaluated where the code departs from the claim: after `Connect` and a
first `Disconnect`, the client still holds the transport handle, and a second
`Disconnect` closes the transport again and returns what that close returns
instead of nil.  It does not block and leaves the client state as it was. -/
theorem C7_second_disconnect_closes_again :
    connectedClient.Disconnect none =
        Outcome.returned (disconnectedClient, none, [Event.wsClose 1]) ∧
      disconnectedClient.ws = some 1 ∧
      disconnectedClient.Disconnect (some "use of closed network connection") =
        Outcome.returned (disconnectedClient, some "use of closed network connection",
          [Event.wsClose 1]) := by
  decide

/-- C8, evaluated where the code departs from the claim: after `Connect` and
`Disconnect`, `IsConnected` still reports true and `CreateContext` registers a
session, so the mapping is not empty while the transport is closed. -/
theorem C8_session_created_after_disconnect :
    connectedClient.Disconnect none =
        Outcome.returned (disconnectedClient, none, [Event.wsClose 1]) ∧
      disconnectedClient.GetActiveContextCount = 0 ∧
      disconnectedClient.IsConnected = true ∧
      (disconnectedClient.CreateContext "a").2 = Except.ok (newSession "a" (some 1)) ∧
      (disconnectedClient.CreateContext "a").1.GetActiveContextCount = 1 ∧
      (disconnectedClient.CreateContext "a").1.IsConnected = true := by
  decide

end TTS
